import Mathlib

/-!
Shallow embedding of the chat2word session-orchestration core.

The embedding follows the Python sources:
  * `src/session_controller.py` — `SessionController` (state machine,
    `start_session`, `stop_session`, `cancel_session`, the recognition-event
    handler and the `_fail` error path);
  * `src/recorder.py` — `SoundDeviceRecorder` (`start`, `stop`,
    `_emit_sentinel_if_needed`, `_on_audio`) over a bounded queue modelling
    Python's `queue.Queue` with `put_nowait`;
  * `src/models.py` / `src/errors.py` — the data model and error codes.

Modelling conventions:
  * The observer callbacks (`on_state_change`, `on_partial`, `on_error`) and
    the dependency calls (recorder/recognizer start and stop, paste) are
    modelled as append-only logs / counters carried in the controller state,
    so that "exactly one error is reported" is a statement about a list.
  * The audio channel handed to the recorder and recognizer is identified by
    its allocation generation `queue_gen`; `start_session` allocating a fresh
    `Queue` increments the generation, and the `starts` log records which
    component was started wired to which generation.
  * The blocking wait `self._final_event.wait(timeout)` inside
    `stop_session` is modelled by a list of `MidAction`s — recognition events
    or `cancel_session` calls handled by other threads while the waiter is
    blocked (each such handler runs under the controller lock).  Python's
    `threading.Event.wait` returns `True` iff the flag is set when it
    returns, and it returns before the timeout iff some other thread set the
    flag; since no mid-wait action ever clears the flag, the flag value after
    the mid-wait actions is both the value of `got_final` and the indicator
    of an early wake-up (`false` = the waiter slept the full timeout).
  * Python's `str.strip()` is modelled by `strip` below, dropping leading
    and trailing whitespace characters; the blank test `if not final_text`
    is emptiness of the stripped string.
-/

namespace Chat2Word

/-- `SessionState` from `src/models.py`. -/
inductive SessionState
  | IDLE
  | RECORDING
  | FINALIZING
  | PASTING
  | ERROR
  deriving DecidableEq, Repr

/-- `RecognitionEvent` from `src/models.py`.  `kind` is a plain string in the
source (compared against the `RecognitionKind` enum values `"partial"`,
`"final"`, `"error"`); we keep it a string so that unrecognised kinds are
representable and ignored exactly as in the code. -/
structure RecognitionEvent where
  kind : String
  text : String := ""
  code : String := ""
  message : String := ""
  retryable : Bool := false
  deriving DecidableEq, Repr

/-- `PasteResult` from `src/models.py`. -/
structure PasteResult where
  success : Bool
  reason : String
  clipboard_restored : Bool
  deriving DecidableEq, Repr

/-- `AudioFrame` from `src/models.py` (PCM bytes abstracted to a list). -/
structure AudioFrame where
  pcm16_bytes : List Nat := []
  sample_rate : Nat := 16000
  channels : Nat := 1
  timestamp_ms : Nat := 0
  deriving DecidableEq, Repr

/-- Error code from `src/errors.py`. -/
def ASR_PROTOCOL_ERROR : String := "ASR_PROTOCOL_ERROR"

/-- Error code from `src/errors.py`. -/
def NO_ACTIVE_TARGET : String := "NO_ACTIVE_TARGET"

/-- Python `str.strip()` restricted to the whitespace characters relevant
here: drop leading and trailing whitespace from the character list. -/
def strip (s : String) : String :=
  String.mk (((s.data.dropWhile Char.isWhitespace).reverse.dropWhile
    Char.isWhitespace).reverse)

/-- Which dependent component a `start` call went to (recognizer vs
recorder), used by the controller's start log. -/
inductive StartKind
  | recognizer
  | recorder
  deriving DecidableEq, Repr

/-- The `SessionController` state from `src/session_controller.py`, with the
observer callbacks and the dependency calls reified as logs:

  * `state_changes` — arguments of every `on_state_change(from, to)` call;
  * `errors` — arguments of every `on_error(code, message)` call;
  * `partial_texts` — arguments of every `on_partial(text)` call;
  * `paste_calls` — texts handed to `paste_service.paste_text`;
  * `starts` — dependency `start` calls, each tagged with the generation of
    the audio queue it was wired to;
  * `recorder_stops` / `recognizer_stops` — counts of the best-effort stop
    calls. -/
structure Ctrl where
  state : SessionState
  session_id : Nat
  final_event : Bool
  final_text : String
  queue_gen : Nat
  state_changes : List (SessionState × SessionState)
  errors : List (String × String)
  partial_texts : List String
  paste_calls : List String
  starts : List (StartKind × Nat)
  recorder_stops : Nat
  recognizer_stops : Nat
  deriving DecidableEq, Repr

/-- The freshly constructed controller (`SessionController.__init__`). -/
def Ctrl.init : Ctrl :=
  { state := SessionState.IDLE
    session_id := 0
    final_event := false
    final_text := ""
    queue_gen := 0
    state_changes := []
    errors := []
    partial_texts := []
    paste_calls := []
    starts := []
    recorder_stops := 0
    recognizer_stops := 0 }

/-- `SessionController._transition`: no-op when the state is unchanged,
otherwise record the new state and fire `on_state_change(from, to)`. -/
def transition (c : Ctrl) (to_state : SessionState) : Ctrl :=
  if c.state = to_state then c
  else { c with
    state := to_state
    state_changes := c.state_changes ++ [(c.state, to_state)] }

/-- `SessionController._emit_error`: fire `on_error(code, message)`. -/
def emit_error (c : Ctrl) (code message : String) : Ctrl :=
  { c with errors := c.errors ++ [(code, message)] }

/-- `SessionController._safe_stop_recorder` (exceptions swallowed). -/
def safe_stop_recorder (c : Ctrl) : Ctrl :=
  { c with recorder_stops := c.recorder_stops + 1 }

/-- `SessionController._safe_stop_recognizer` (exceptions swallowed). -/
def safe_stop_recognizer (c : Ctrl) : Ctrl :=
  { c with recognizer_stops := c.recognizer_stops + 1 }

/-- `SessionController._fail`: transition to `ERROR`, report the error, stop
both dependencies best-effort, transition to `IDLE`.  Note: it does not
touch `final_event`. -/
def fail (c : Ctrl) (code message : String) : Ctrl :=
  let c1 := transition c SessionState.ERROR
  let c2 := emit_error c1 code message
  let c3 := safe_stop_recorder c2
  let c4 := safe_stop_recognizer c3
  transition c4 SessionState.IDLE

/-- `SessionController.start_session`: no-op unless `IDLE`; otherwise bump
the session id, clear the final-result signal and text, allocate a fresh
audio queue (generation bump), transition to `RECORDING`, and start the
recognizer then the recorder, both wired to the new queue. -/
def start_session (c : Ctrl) : Ctrl :=
  if c.state ≠ SessionState.IDLE then c
  else
    let c1 := { c with
      session_id := c.session_id + 1
      final_event := false
      final_text := ""
      queue_gen := c.queue_gen + 1 }
    let c2 := transition c1 SessionState.RECORDING
    { c2 with starts := c2.starts ++
        [(StartKind.recognizer, c2.queue_gen), (StartKind.recorder, c2.queue_gen)] }

/-- `SessionController._handle_recognition_event` (run under the lock from
the recognizer's thread).  A `partial` kind forwards the text to
`on_partial`; a `final` kind stores the text and sets the final-result
signal; an `error` kind drives `_fail` with `event.code or
ASR_PROTOCOL_ERROR`; any other kind is ignored. -/
def handle_recognition_event (c : Ctrl) (e : RecognitionEvent) : Ctrl :=
  if e.kind = "partial" then
    { c with partial_texts := c.partial_texts ++ [e.text] }
  else if e.kind = "final" then
    { c with final_text := e.text, final_event := true }
  else if e.kind = "error" then
    fail c (if e.code = "" then ASR_PROTOCOL_ERROR else e.code) e.message
  else c

/-- `SessionController.cancel_session`: no-op when `IDLE`; otherwise report
the reason as an `ASR_PROTOCOL_ERROR`, stop both dependencies best-effort,
and transition to `IDLE`. -/
def cancel_session (c : Ctrl) (reason : String) : Ctrl :=
  if c.state = SessionState.IDLE then c
  else
    let c1 := emit_error c ASR_PROTOCOL_ERROR reason
    let c2 := safe_stop_recorder c1
    let c3 := safe_stop_recognizer c2
    transition c3 SessionState.IDLE

/-- An action performed by another thread while `stop_session` is blocked in
`self._final_event.wait(...)`: a recognition event delivered to the handler,
or a `cancel_session` call. -/
inductive MidAction
  | recog (e : RecognitionEvent)
  | cancel (reason : String)
  deriving DecidableEq, Repr

/-- Run one mid-wait action (each runs under the controller lock). -/
def apply_mid (c : Ctrl) : MidAction → Ctrl
  | MidAction.recog e => handle_recognition_event c e
  | MidAction.cancel r => cancel_session c r

/-- Run a sequence of mid-wait actions in order. -/
def run_mid (c : Ctrl) : List MidAction → Ctrl
  | [] => c
  | a :: rest => run_mid (apply_mid c a) rest

/-- The first locked section of `SessionController.stop_session` (after the
`RECORDING` guard): transition to `FINALIZING` and stop the recorder. -/
def stop_session_entry (c : Ctrl) : Ctrl :=
  safe_stop_recorder (transition c SessionState.FINALIZING)

/-- `SessionController.stop_session`, parameterised by the paste service and
by the actions other threads perform while the caller is blocked in
`self._final_event.wait(timeout)`.  `got_final` is the flag value after
those actions (see the module comment: the flag is monotone during the wait,
so this is also whether the waiter woke before the timeout). -/
def stop_session (paste : String → PasteResult) (c : Ctrl)
    (during : List MidAction) : Ctrl :=
  if c.state ≠ SessionState.RECORDING then c
  else
    let c1 := run_mid (stop_session_entry c) during
    let got_final := c1.final_event
    if c1.state ≠ SessionState.FINALIZING then c1
    else if got_final = false then
      fail c1 ASR_PROTOCOL_ERROR "final result timeout"
    else
      let ft := strip c1.final_text
      if ft = "" then safe_stop_recognizer (transition c1 SessionState.IDLE)
      else
        let c2 := transition c1 SessionState.PASTING
        let r := paste ft
        let c3 := { c2 with paste_calls := c2.paste_calls ++ [ft] }
        let c4 := if r.success then c3 else emit_error c3 NO_ACTIVE_TARGET r.reason
        transition (safe_stop_recognizer c4) SessionState.IDLE

/-! ### Recorder (`src/recorder.py`) -/

/-- Python's bounded `queue.Queue` holding `AudioFrame | None` items
(`none` is the end-of-stream sentinel).  `maxsize = 0` means unbounded,
matching `queue.Queue`. -/
structure BQueue where
  maxsize : Nat
  items : List (Option AudioFrame)
  deriving DecidableEq, Repr

/-- `queue.Queue.full`: `0 < maxsize <= qsize()`. -/
def BQueue.full (q : BQueue) : Bool :=
  decide (0 < q.maxsize ∧ q.maxsize ≤ q.items.length)

/-- `queue.Queue.put_nowait`: append unless full; the flag reports whether
the item was enqueued (`false` = the `Full` exception was raised). -/
def put_nowait (q : BQueue) (x : Option AudioFrame) : BQueue × Bool :=
  if q.full then (q, false) else ({ q with items := q.items ++ [x] }, true)

/-- `SoundDeviceRecorder` from `src/recorder.py`.  The recorder holds the
queue it was started with (`_audio_queue`, `none` before any `start`); the
sounddevice stream is abstracted to the flag `stream_open`. -/
structure SoundDeviceRecorder where
  running : Bool := false
  stream_open : Bool := false
  dropped_chunks : Nat := 0
  audio_queue : Option BQueue := none
  deriving DecidableEq, Repr

/-- `SoundDeviceRecorder._emit_sentinel_if_needed`: with no attached queue,
do nothing; otherwise `put_nowait(None)`, dropping it silently on `Full`. -/
def emit_sentinel_if_needed (r : SoundDeviceRecorder) : SoundDeviceRecorder :=
  match r.audio_queue with
  | none => r
  | some q => { r with audio_queue := some (put_nowait q none).1 }

/-- `SoundDeviceRecorder.stop`: when not running, just attempt the sentinel;
when running, stop and close the stream and attempt the sentinel. -/
def SoundDeviceRecorder.stop (r : SoundDeviceRecorder) : SoundDeviceRecorder :=
  if r.running = false then emit_sentinel_if_needed r
  else emit_sentinel_if_needed { r with running := false, stream_open := false }

/-- `SoundDeviceRecorder.start`: no-op when already running; otherwise
attach the queue and open the stream. -/
def SoundDeviceRecorder.start (r : SoundDeviceRecorder) (q : BQueue) :
    SoundDeviceRecorder :=
  if r.running then r
  else { r with running := true, stream_open := true, audio_queue := some q }

/-- `SoundDeviceRecorder._on_audio`: push a data frame; a capacity-exceeded
push is dropped and counted in `dropped_chunks`. -/
def SoundDeviceRecorder.on_audio (r : SoundDeviceRecorder) (f : AudioFrame) :
    SoundDeviceRecorder :=
  if r.running = false then r
  else
    match r.audio_queue with
    | none => r
    | some q =>
      let p := put_nowait q (some f)
      if p.2 then { r with audio_queue := some p.1 }
      else { r with dropped_chunks := r.dropped_chunks + 1 }

/-- Number of end-of-stream sentinels present in a channel (`0` when no
channel is attached). -/
def sentinel_count (oq : Option BQueue) : Nat :=
  match oq with
  | none => 0
  | some q => q.items.countP (fun i => i.isNone)

/-! ### Concrete fixtures (test doubles in the sense of
`src/tests/test_session_controller.py`) -/

/-- A paste service that always succeeds (`FakePasteService(success=True)`). -/
def paste_ok : String → PasteResult := fun _ => ⟨true, "ok", true⟩

/-- A paste service that always fails (`FakePasteService(success=False)`). -/
def paste_fail : String → PasteResult := fun _ => ⟨false, "no target", true⟩

/-- Controller after one successful `start_session` from the initial state:
state `RECORDING`, session id 1, final-result flag clear. -/
def demo_rec : Ctrl := start_session Ctrl.init

/-- A recognizer-reported terminal error event. -/
def demo_err_event : RecognitionEvent :=
  { kind := "error", code := "NETWORK_ERROR", message := "boom" }

/-- The controller as seen by the blocked `stop_session` caller at the end
of its `self._final_event.wait(...)` window, when the only activity during
the wait was the recognition error event: the first locked section of
`stop_session` ran, then the handler processed the error. -/
def c1_wait_outcome : Ctrl :=
  run_mid (stop_session_entry demo_rec) [MidAction.recog demo_err_event]

/-- `cancel_session "x"` issued while `RECORDING`. -/
def demo_cancelled : Ctrl := cancel_session demo_rec "x"

/-- A full `stop_session` cycle during which two `final` events (texts
`"a"` then `"b"`) were handled before the waiter read the final text. -/
def demo_two_finals : Ctrl :=
  stop_session paste_ok demo_rec
    [MidAction.recog { kind := "final", text := "a" },
     MidAction.recog { kind := "final", text := "b" }]

/-- A full `stop_session` cycle in which no event at all arrived: the
finalize-timeout path ran and the controller is back to `IDLE` with the
final-result flag still clear. -/
def demo_timeout_idle : Ctrl := stop_session paste_ok demo_rec []

/-- A recorder that was never started (no queue attached). -/
def fresh_recorder : SoundDeviceRecorder := {}

/-- A bounded channel of capacity 1 already holding one data frame. -/
def full_queue : BQueue := { maxsize := 1, items := [some {}] }

/-- A running recorder whose attached channel is already full. -/
def full_recorder : SoundDeviceRecorder :=
  SoundDeviceRecorder.start fresh_recorder full_queue

/-- Mid-wait actions that are plain partial-text events (no `final`, no
`error`, no cancellation). -/
def is_partial_mid : MidAction → Bool
  | MidAction.recog e => e.kind == "partial"
  | MidAction.cancel _ => false

/-- The partial texts forwarded by a list of mid-wait actions. -/
def mid_texts : List MidAction → List String
  | [] => []
  | MidAction.recog e :: rest =>
      if e.kind = "partial" then e.text :: mid_texts rest else mid_texts rest
  | MidAction.cancel _ :: rest => mid_texts rest

/-! ### Helper lemmas -/

theorem handle_partial_eq (c : Ctrl) (e : RecognitionEvent)
    (h : e.kind = "partial") :
    handle_recognition_event c e =
      { c with partial_texts := c.partial_texts ++ [e.text] } := by
  simp [handle_recognition_event, h]

theorem handle_final_eq (c : Ctrl) (e : RecognitionEvent)
    (h : e.kind = "final") :
    handle_recognition_event c e =
      { c with final_text := e.text, final_event := true } := by
  simp [handle_recognition_event, h]

/-- Mid-wait partial events only touch the partial-text log. -/
theorem run_mid_partials_only (during : List MidAction) (c : Ctrl)
    (h : ∀ a ∈ during, is_partial_mid a = true) :
    run_mid c during =
      { c with partial_texts := c.partial_texts ++ mid_texts during } := by
  induction during generalizing c with
  | nil => simp [run_mid, mid_texts]
  | cons a rest ih =>
    cases a with
    | recog e =>
      have he : e.kind = "partial" := by
        have hm := h _ (List.mem_cons_self _ _)
        simpa [is_partial_mid] using hm
      rw [run_mid, apply_mid, handle_partial_eq _ _ he,
        ih _ (fun a ha => h a (List.mem_cons_of_mem _ ha))]
      simp [mid_texts, he]
    | cancel r =>
      have hm := h _ (List.mem_cons_self _ _)
      simp [is_partial_mid] at hm

/-- `stop_session` from `RECORDING` with a clear final-result flag and only
partial-text activity during the wait runs the timeout path: one
`ASR_PROTOCOL_ERROR` report, transitions `RECORDING → FINALIZING → ERROR →
IDLE`, no paste. -/
theorem stop_session_timeout_spec (paste : String → PasteResult) (c : Ctrl)
    (during : List MidAction)
    (h1 : c.state = SessionState.RECORDING)
    (h2 : c.final_event = false)
    (h3 : ∀ a ∈ during, is_partial_mid a = true) :
    (stop_session paste c during).state = SessionState.IDLE ∧
    (stop_session paste c during).errors =
      c.errors ++ [(ASR_PROTOCOL_ERROR, "final result timeout")] ∧
    (stop_session paste c during).state_changes = c.state_changes ++
      [(SessionState.RECORDING, SessionState.FINALIZING),
       (SessionState.FINALIZING, SessionState.ERROR),
       (SessionState.ERROR, SessionState.IDLE)] ∧
    (stop_session paste c during).paste_calls = c.paste_calls := by
  simp only [stop_session, stop_session_entry, h1]
  rw [run_mid_partials_only during _ h3]
  simp [transition, safe_stop_recorder, safe_stop_recognizer, fail, emit_error, h1, h2]

/-- `stop_session` from `RECORDING` with a single non-blank `final` event
during the wait: one paste of the stripped text, transitions through
`PASTING` back to `IDLE`, and a `NO_ACTIVE_TARGET` report exactly when the
paste outcome is a failure. -/
theorem stop_session_nonblank_final_spec (paste : String → PasteResult)
    (c : Ctrl) (t : String)
    (h1 : c.state = SessionState.RECORDING)
    (h2 : ¬ strip t = "") :
    (stop_session paste c [MidAction.recog { kind := "final", text := t }]).paste_calls
      = c.paste_calls ++ [strip t] ∧
    (stop_session paste c [MidAction.recog { kind := "final", text := t }]).state
      = SessionState.IDLE ∧
    (stop_session paste c [MidAction.recog { kind := "final", text := t }]).state_changes
      = c.state_changes ++
        [(SessionState.RECORDING, SessionState.FINALIZING),
         (SessionState.FINALIZING, SessionState.PASTING),
         (SessionState.PASTING, SessionState.IDLE)] ∧
    ((paste (strip t)).success = false →
      (stop_session paste c [MidAction.recog { kind := "final", text := t }]).errors
        = c.errors ++ [(NO_ACTIVE_TARGET, (paste (strip t)).reason)]) ∧
    ((paste (strip t)).success = true →
      (stop_session paste c [MidAction.recog { kind := "final", text := t }]).errors
        = c.errors) := by
  simp only [stop_session, stop_session_entry, run_mid, apply_mid, h1]
  rw [handle_final_eq _ _ rfl]
  cases hs : (paste (strip t)).success <;>
    simp [transition, safe_stop_recorder, safe_stop_recognizer, emit_error, h1, h2, hs]

/-! ### Claim theorems -/

/-- Claim C1 (evaluation of the code at the failing input).  The claim says
the error path sets the final-result event flag so a blocked
`stop_session` waiter wakes before the finalize timeout expires.  The code
does not: `_fail` never calls `self._final_event.set()`.  Here the handler
processes a recognition `error` event during the wait window of a
`stop_session` call made while `RECORDING`: the full error path runs (error
reported, state torn down to `IDLE`), yet the flag stays `false`, so
`Event.wait` can only return by timing out — the waiter sleeps the full
finalize timeout and then returns at the `state != FINALIZING` check
without further action. -/
theorem c1_error_event_does_not_wake_waiter :
    c1_wait_outcome.final_event = false ∧
    c1_wait_outcome.state = SessionState.IDLE ∧
    c1_wait_outcome.errors = [("NETWORK_ERROR", "boom")] ∧
    stop_session paste_ok demo_rec [MidAction.recog demo_err_event] = c1_wait_outcome := by
  decide

/-- Claim C2 counterexample.  `cancel_session "x"` from `RECORDING` is a
failure path (an error is reported), yet the observed transition sequence
is `IDLE → RECORDING` then `RECORDING → IDLE`: the machine moves from a
non-`IDLE` state to `IDLE` without ever passing through `ERROR`,
contradicting the claim that every failure path contains a transition into
`ERROR` followed by `ERROR → IDLE`. -/
theorem c2_cancel_bypasses_error_cex :
    demo_cancelled.errors = [(ASR_PROTOCOL_ERROR, "x")] ∧
    demo_cancelled.state = SessionState.IDLE ∧
    demo_cancelled.state_changes =
      [(SessionState.IDLE, SessionState.RECORDING),
       (SessionState.RECORDING, SessionState.IDLE)] ∧
    demo_cancelled.state_changes.all
      (fun p => !(p.2 == SessionState.ERROR)) = true := by
  decide

/-- Claim C2 as amended.  The finalize-timeout path and the
recognizer-`error` path both transition into `ERROR` immediately followed
by `ERROR → IDLE` within the same logical step; `cancel_session` from any
non-`IDLE` state reports exactly one error but transitions directly to
`IDLE` without passing through `ERROR`. -/
theorem c2_failure_transitions (paste : String → PasteResult) (c : Ctrl)
    (e : RecognitionEvent) (reason : String)
    (he : e.kind = "error") :
    (c.state = SessionState.RECORDING → c.final_event = false →
      (stop_session paste c []).state_changes = c.state_changes ++
        [(SessionState.RECORDING, SessionState.FINALIZING),
         (SessionState.FINALIZING, SessionState.ERROR),
         (SessionState.ERROR, SessionState.IDLE)]) ∧
    (¬ c.state = SessionState.ERROR →
      (handle_recognition_event c e).state_changes = c.state_changes ++
        [(c.state, SessionState.ERROR), (SessionState.ERROR, SessionState.IDLE)] ∧
      (handle_recognition_event c e).state = SessionState.IDLE) ∧
    (¬ c.state = SessionState.IDLE →
      (cancel_session c reason).state_changes =
        c.state_changes ++ [(c.state, SessionState.IDLE)] ∧
      (cancel_session c reason).state = SessionState.IDLE ∧
      (cancel_session c reason).errors = c.errors ++ [(ASR_PROTOCOL_ERROR, reason)]) := by
  refine ⟨fun h1 h2 =>
    (stop_session_timeout_spec paste c [] h1 h2 (by simp)).2.2.1,
    fun h1 => ?_, fun h1 => ?_⟩
  · simp [handle_recognition_event, he, fail, transition, emit_error,
      safe_stop_recorder, safe_stop_recognizer, h1]
  · simp [cancel_session, transition, emit_error,
      safe_stop_recorder, safe_stop_recognizer, h1]

/-- Witness for C2's amended theorem at a concrete cancel from
`RECORDING`. -/
theorem c2_failure_transitions_witness :
    ¬ demo_rec.state = SessionState.IDLE ∧
    ((cancel_session demo_rec "x").state_changes =
      demo_rec.state_changes ++ [(demo_rec.state, SessionState.IDLE)] ∧
    (cancel_session demo_rec "x").state = SessionState.IDLE ∧
    (cancel_session demo_rec "x").errors =
      demo_rec.errors ++ [(ASR_PROTOCOL_ERROR, "x")]) :=
  ⟨by decide,
    (c2_failure_transitions paste_ok demo_rec
      { kind := "error", code := "", message := "" } "x" rfl).2.2 (by decide)⟩

/-- Claim C3.  `stop_session` while `RECORDING` with the final-result flag
clear and no `final`/`error` event during the finalize wait (only partial
texts may arrive) reports exactly one `ASR_PROTOCOL_ERROR` and ends in
`IDLE`. -/
theorem c3_finalize_timeout_single_error (paste : String → PasteResult)
    (c : Ctrl) (during : List MidAction)
    (h1 : c.state = SessionState.RECORDING)
    (h2 : c.final_event = false)
    (h3 : ∀ a ∈ during, is_partial_mid a = true) :
    (stop_session paste c during).state = SessionState.IDLE ∧
    (stop_session paste c during).errors =
      c.errors ++ [(ASR_PROTOCOL_ERROR, "final result timeout")] :=
  ⟨(stop_session_timeout_spec paste c during h1 h2 h3).1,
   (stop_session_timeout_spec paste c during h1 h2 h3).2.1⟩

/-- Witness for C3 at a concrete session with an empty wait window. -/
theorem c3_finalize_timeout_single_error_witness :
    (stop_session paste_ok demo_rec []).state = SessionState.IDLE ∧
    (stop_session paste_ok demo_rec []).errors =
      demo_rec.errors ++ [(ASR_PROTOCOL_ERROR, "final result timeout")] :=
  c3_finalize_timeout_single_error paste_ok demo_rec [] (by decide) (by decide)
    (by decide)

/-- Claim C4.  A non-blank `final` received by a waiting `stop_session`
drives `FINALIZING → PASTING → IDLE` with exactly one paste call; a failing
paste outcome yields exactly one `NO_ACTIVE_TARGET` report (with the
outcome's reason) and the machine still never enters `ERROR`, ending in
`IDLE`; a successful outcome yields no report at all. -/
theorem c4_nonblank_final_pastes_once (paste : String → PasteResult)
    (c : Ctrl) (t : String)
    (h1 : c.state = SessionState.RECORDING)
    (h2 : ¬ strip t = "") :
    (stop_session paste c [MidAction.recog { kind := "final", text := t }]).paste_calls
      = c.paste_calls ++ [strip t] ∧
    (stop_session paste c [MidAction.recog { kind := "final", text := t }]).state
      = SessionState.IDLE ∧
    (stop_session paste c [MidAction.recog { kind := "final", text := t }]).state_changes
      = c.state_changes ++
        [(SessionState.RECORDING, SessionState.FINALIZING),
         (SessionState.FINALIZING, SessionState.PASTING),
         (SessionState.PASTING, SessionState.IDLE)] ∧
    ((paste (strip t)).success = false →
      (stop_session paste c [MidAction.recog { kind := "final", text := t }]).errors
        = c.errors ++ [(NO_ACTIVE_TARGET, (paste (strip t)).reason)]) ∧
    ((paste (strip t)).success = true →
      (stop_session paste c [MidAction.recog { kind := "final", text := t }]).errors
        = c.errors) :=
  stop_session_nonblank_final_spec paste c t h1 h2

/-- Witness for C4 with text `"hello"` and a failing paste service. -/
theorem c4_nonblank_final_pastes_once_witness :
    (stop_session paste_fail demo_rec
        [MidAction.recog { kind := "final", text := "hello" }]).paste_calls
      = demo_rec.paste_calls ++ [strip "hello"] ∧
    (stop_session paste_fail demo_rec
        [MidAction.recog { kind := "final", text := "hello" }]).state
      = SessionState.IDLE ∧
    (stop_session paste_fail demo_rec
        [MidAction.recog { kind := "final", text := "hello" }]).state_changes
      = demo_rec.state_changes ++
        [(SessionState.RECORDING, SessionState.FINALIZING),
         (SessionState.FINALIZING, SessionState.PASTING),
         (SessionState.PASTING, SessionState.IDLE)] ∧
    ((paste_fail (strip "hello")).success = false →
      (stop_session paste_fail demo_rec
          [MidAction.recog { kind := "final", text := "hello" }]).errors
        = demo_rec.errors ++ [(NO_ACTIVE_TARGET, (paste_fail (strip "hello")).reason)]) ∧
    ((paste_fail (strip "hello")).success = true →
      (stop_session paste_fail demo_rec
          [MidAction.recog { kind := "final", text := "hello" }]).errors
        = demo_rec.errors) :=
  c4_nonblank_final_pastes_once paste_fail demo_rec "hello" (by decide) (by decide)

/-- Claim C5.  A blank (whitespace-only) `final` received by a waiting
`stop_session` skips pasting entirely, transitions directly
`FINALIZING → IDLE` (no `PASTING`, no `ERROR`, no error report), and still
stops the recognizer. -/
theorem c5_blank_final_skips_paste (paste : String → PasteResult)
    (c : Ctrl) (t : String)
    (h1 : c.state = SessionState.RECORDING)
    (h2 : strip t = "") :
    (stop_session paste c [MidAction.recog { kind := "final", text := t }]).paste_calls
      = c.paste_calls ∧
    (stop_session paste c [MidAction.recog { kind := "final", text := t }]).state
      = SessionState.IDLE ∧
    (stop_session paste c [MidAction.recog { kind := "final", text := t }]).state_changes
      = c.state_changes ++
        [(SessionState.RECORDING, SessionState.FINALIZING),
         (SessionState.FINALIZING, SessionState.IDLE)] ∧
    (stop_session paste c [MidAction.recog { kind := "final", text := t }]).errors
      = c.errors ∧
    (stop_session paste c [MidAction.recog { kind := "final", text := t }]).recognizer_stops
      = c.recognizer_stops + 1 := by
  simp only [stop_session, stop_session_entry, run_mid, apply_mid, h1]
  rw [handle_final_eq _ _ rfl]
  simp [transition, safe_stop_recorder, safe_stop_recognizer, h1, h2]

/-- Witness for C5 with the whitespace-only text of the spec's example. -/
theorem c5_blank_final_skips_paste_witness :
    (stop_session paste_ok demo_rec
        [MidAction.recog { kind := "final", text := "   " }]).paste_calls
      = demo_rec.paste_calls ∧
    (stop_session paste_ok demo_rec
        [MidAction.recog { kind := "final", text := "   " }]).state
      = SessionState.IDLE ∧
    (stop_session paste_ok demo_rec
        [MidAction.recog { kind := "final", text := "   " }]).state_changes
      = demo_rec.state_changes ++
        [(SessionState.RECORDING, SessionState.FINALIZING),
         (SessionState.FINALIZING, SessionState.IDLE)] ∧
    (stop_session paste_ok demo_rec
        [MidAction.recog { kind := "final", text := "   " }]).errors
      = demo_rec.errors ∧
    (stop_session paste_ok demo_rec
        [MidAction.recog { kind := "final", text := "   " }]).recognizer_stops
      = demo_rec.recognizer_stops + 1 :=
  c5_blank_final_skips_paste paste_ok demo_rec "   " (by decide) (by decide)

/-- Claim C6 counterexample.  Two `final` events (`"a"` then `"b"`) handled
before the waiter reads the final text make the paste service receive
`"b"` — the last, not the first — refuting the claim that the paste
service receives `t1`.  And a `final` handled after the machine has left
`FINALIZING` (here: back in `IDLE` after a timed-out cycle with the flag
still clear) is not discarded: it overwrites the stored final text and sets
the final-result signal. -/
theorem c6_first_final_cex :
    demo_two_finals.paste_calls = ["b"] ∧
    ¬ demo_two_finals.paste_calls = ["a"] ∧
    demo_two_finals.state = SessionState.IDLE ∧
    demo_timeout_idle.state = SessionState.IDLE ∧
    demo_timeout_idle.final_event = false ∧
    (handle_recognition_event demo_timeout_idle
      { kind := "final", text := "late" }).final_text = "late" ∧
    (handle_recognition_event demo_timeout_idle
      { kind := "final", text := "late" }).final_event = true := by
  decide

/-- Claim C6 as amended.  The handler consumes every `final`
unconditionally — in any state it overwrites the stored final text with the
event's text and sets the final-result signal (touching neither the state
nor the paste log) — so the waiting `stop_session` reads the text of the
most recent `final` handled before its read: with `t1` then `t2` handled
during the wait, the paste service receives the stripped `t2`.  A `final`
handled after the machine leaves `FINALIZING` likewise updates the stored
text and signal; it cannot alter the already-completed cycle's paste, and
the next `start_session` resets both. -/
theorem c6_last_final_consumed (paste : String → PasteResult) (c d : Ctrl)
    (e : RecognitionEvent) (t1 t2 : String)
    (he : e.kind = "final")
    (h1 : d.state = SessionState.RECORDING)
    (h2 : ¬ strip t2 = "") :
    (handle_recognition_event c e).final_text = e.text ∧
    (handle_recognition_event c e).final_event = true ∧
    (handle_recognition_event c e).state = c.state ∧
    (handle_recognition_event c e).paste_calls = c.paste_calls ∧
    (stop_session paste d
        [MidAction.recog { kind := "final", text := t1 },
         MidAction.recog { kind := "final", text := t2 }]).paste_calls
      = d.paste_calls ++ [strip t2] := by
  rw [handle_final_eq _ _ he]
  refine ⟨rfl, rfl, rfl, rfl, ?_⟩
  simp only [stop_session, stop_session_entry, run_mid, apply_mid, h1]
  rw [handle_final_eq _ _ rfl, handle_final_eq _ _ rfl]
  cases hs : (paste (strip t2)).success <;>
    simp [transition, safe_stop_recorder, safe_stop_recognizer, emit_error, h1, h2, hs]

/-- Witness for C6's amended theorem: a late `final` into the post-timeout
`IDLE` controller, and the two-finals run. -/
theorem c6_last_final_consumed_witness :
    (handle_recognition_event demo_timeout_idle
      { kind := "final", text := "late" }).final_text =
        ({ kind := "final", text := "late" } : RecognitionEvent).text ∧
    (handle_recognition_event demo_timeout_idle
      { kind := "final", text := "late" }).final_event = true ∧
    (handle_recognition_event demo_timeout_idle
      { kind := "final", text := "late" }).state = demo_timeout_idle.state ∧
    (handle_recognition_event demo_timeout_idle
      { kind := "final", text := "late" }).paste_calls
      = demo_timeout_idle.paste_calls ∧
    (stop_session paste_ok demo_rec
        [MidAction.recog { kind := "final", text := "a" },
         MidAction.recog { kind := "final", text := "b" }]).paste_calls
      = demo_rec.paste_calls ++ [strip "b"] :=
  c6_last_final_consumed paste_ok demo_timeout_idle demo_rec
    { kind := "final", text := "late" } "a" "b" rfl (by decide) (by decide)

/-- Claim C7.  `start_session` from `IDLE` increments the session id by
one (hence ids strictly increase across cycles), clears the final-result
signal, resets the final text, allocates a fresh audio channel (generation
bump, never reusing the previous one), transitions to `RECORDING`, and
starts the recognizer before the recorder, both wired to the new
channel. -/
theorem c7_start_session_fresh_setup (c : Ctrl)
    (h : c.state = SessionState.IDLE) :
    (start_session c).session_id = c.session_id + 1 ∧
    (start_session c).final_event = false ∧
    (start_session c).final_text = "" ∧
    (start_session c).queue_gen = c.queue_gen + 1 ∧
    (start_session c).state = SessionState.RECORDING ∧
    (start_session c).state_changes =
      c.state_changes ++ [(SessionState.IDLE, SessionState.RECORDING)] ∧
    (start_session c).starts = c.starts ++
      [(StartKind.recognizer, c.queue_gen + 1),
       (StartKind.recorder, c.queue_gen + 1)] := by
  simp [start_session, transition, h]

/-- Witness for C7 at the freshly constructed controller. -/
theorem c7_start_session_fresh_setup_witness :
    (start_session Ctrl.init).session_id = Ctrl.init.session_id + 1 ∧
    (start_session Ctrl.init).final_event = false ∧
    (start_session Ctrl.init).final_text = "" ∧
    (start_session Ctrl.init).queue_gen = Ctrl.init.queue_gen + 1 ∧
    (start_session Ctrl.init).state = SessionState.RECORDING ∧
    (start_session Ctrl.init).state_changes =
      Ctrl.init.state_changes ++ [(SessionState.IDLE, SessionState.RECORDING)] ∧
    (start_session Ctrl.init).starts = Ctrl.init.starts ++
      [(StartKind.recognizer, Ctrl.init.queue_gen + 1),
       (StartKind.recorder, Ctrl.init.queue_gen + 1)] :=
  c7_start_session_fresh_setup Ctrl.init (by decide)

/-- Claim C8.  Any sequence of `start_session` calls made while the state
is not `IDLE` is a no-op: the whole controller state — in particular the
state, session id, stored final text, start log and stop counters — is
unchanged. -/
theorem c8_start_session_noop_when_active (c : Ctrl)
    (h : ¬ c.state = SessionState.IDLE) (n : Nat) :
    start_session^[n] c = c := by
  have h1 : start_session c = c := by simp [start_session, h]
  induction n with
  | zero => rfl
  | succ n ih => rw [Function.iterate_succ_apply, h1, ih]

/-- Witness for C8: three `start_session` calls while `RECORDING`. -/
theorem c8_start_session_noop_when_active_witness :
    start_session^[3] demo_rec = demo_rec :=
  c8_start_session_noop_when_active demo_rec (by decide) 3

/-- Claim C9 counterexample.  A `stop()` call does not always leave an
end-of-stream sentinel in the channel: a recorder that was never started
has no attached channel and pushes nothing, and a running recorder whose
bounded channel is already full drops the sentinel silently (`put_nowait`
raises `Full`, which `_emit_sentinel_if_needed` swallows), leaving the
channel unchanged with zero sentinels — refuting "once per stop() call,
including when never started, regardless of how full the channel is". -/
theorem c9_sentinel_dropped_cex :
    fresh_recorder.stop.audio_queue = none ∧
    sentinel_count fresh_recorder.stop.audio_queue = 0 ∧
    full_recorder.stop.audio_queue = some full_queue ∧
    sentinel_count full_recorder.stop.audio_queue = 0 := by
  decide

/-- Claim C9 as amended.  `stop()` is always safe to call and leaves the
recorder not running; each call makes exactly one non-blocking sentinel
push attempt on the attached channel (none when no channel was ever
attached): when the channel is not full the sentinel is appended as the
last item and the sentinel count rises by exactly one, and when the
channel is full the push is dropped and the channel is unchanged. -/
theorem c9_stop_sentinel_behavior (r : SoundDeviceRecorder) :
    (r.stop).running = false ∧
    (r.stop).audio_queue =
      Option.map (fun q => (put_nowait q none).1) r.audio_queue ∧
    (∀ q : BQueue, q.full = false →
      (put_nowait q none).1 = { q with items := q.items ++ [none] } ∧
      sentinel_count (some (put_nowait q none).1) = sentinel_count (some q) + 1) ∧
    (∀ q : BQueue, q.full = true → (put_nowait q none).1 = q) := by
  refine ⟨?_, ?_, fun q hq => ?_, fun q hq => ?_⟩
  · cases hr : r.running <;> cases hq : r.audio_queue <;>
      simp [SoundDeviceRecorder.stop, emit_sentinel_if_needed, hr, hq]
  · cases hr : r.running <;> cases hq : r.audio_queue <;>
      simp [SoundDeviceRecorder.stop, emit_sentinel_if_needed, hr, hq]
  · simp [put_nowait, hq, sentinel_count, List.countP_append]
  · simp [put_nowait, hq]

/-- Witness for C9's amended theorem on a non-full concrete channel. -/
theorem c9_stop_sentinel_behavior_witness :
    (put_nowait { maxsize := 3, items := [] } none).1 =
      { maxsize := 3, items := [none] } ∧
    sentinel_count (some (put_nowait { maxsize := 3, items := [] } none).1) =
      sentinel_count (some ({ maxsize := 3, items := [] } : BQueue)) + 1 :=
  (c9_stop_sentinel_behavior fresh_recorder).2.2.1
    { maxsize := 3, items := [] } (by decide)

/-- Claim C10.  When the `final` text carries leading or trailing
whitespace around non-empty content, the paste service is invoked exactly
once with the stripped text, and not with the raw event text. -/
theorem c10_paste_gets_stripped_text (paste : String → PasteResult)
    (c : Ctrl) (t : String)
    (h1 : c.state = SessionState.RECORDING)
    (h2 : ¬ strip t = "")
    (h3 : ¬ strip t = t) :
    (stop_session paste c [MidAction.recog { kind := "final", text := t }]).paste_calls
      = c.paste_calls ++ [strip t] ∧
    ¬ (stop_session paste c [MidAction.recog { kind := "final", text := t }]).paste_calls
      = c.paste_calls ++ [t] := by
  have hmain := (stop_session_nonblank_final_spec paste c t h1 h2).1
  refine ⟨hmain, ?_⟩
  intro hbad
  rw [hmain] at hbad
  exact h3 (by simpa using List.append_cancel_left hbad)

/-- Witness for C10 with the text `"  hi  "`. -/
theorem c10_paste_gets_stripped_text_witness :
    (stop_session paste_ok demo_rec
        [MidAction.recog { kind := "final", text := "  hi  " }]).paste_calls
      = demo_rec.paste_calls ++ [strip "  hi  "] ∧
    ¬ (stop_session paste_ok demo_rec
        [MidAction.recog { kind := "final", text := "  hi  " }]).paste_calls
      = demo_rec.paste_calls ++ ["  hi  "] :=
  c10_paste_gets_stripped_text paste_ok demo_rec "  hi  " (by decide) (by decide)
    (by decide)

end Chat2Word
